import Mathlib

/-!
Shallow embedding of the real-time voice session manager of the
AI-English-Master repository (the `LiveTutor` component).

Time values (the output audio clock, segment start times, buffer durations)
are modelled as rationals.  Browser resource handles (media stream, audio
nodes, audio contexts, the session promise) are modelled as `Option Nat`
opaque handles.  React state setters become field updates of a record
`TutorState`; each inbound-message branch of the `onmessage` callback, the
`onerror` callback, `stopSession` and the reset prologue of `startSession`
become pure functions on that record.
-/

namespace LiveTutor

/-- Lifecycle state of the session, from
`useState<'idle' | 'connecting' | 'active' | 'error'>('idle')`. -/
inductive Status where
  | idle
  | connecting
  | active
  | error
deriving DecidableEq

/-- Playback status of one `AudioBufferSourceNode`: it is producing sound
(`playing`), it ran to the end of its buffer (`ended`), or `stop()` was
called on it (`stopped`). -/
inductive SourceStatus where
  | playing
  | ended
  | stopped
deriving DecidableEq

/-- One output `AudioBufferSourceNode`, identified by creation order. -/
structure Source where
  id : Nat
  status : SourceStatus
deriving DecidableEq

/-- The arguments object of a tool call, as stored by
`setCurrentTip(call.args as PronunciationTip)`: the cast performs no
validation, so each field may be absent. -/
structure TipArgs where
  word : Option String
  tip : Option String
  phonetic : Option String
deriving DecidableEq

/-- A `functionCall` entry of an inbound `message.toolCall`. -/
structure FunctionCall where
  id : String
  name : String
  args : List (String × String)
deriving DecidableEq

/-- One entry of the `functionResponses` list sent back via
`session.sendToolResponse`. -/
structure ToolResponse where
  id : String
  name : String
  result : String
deriving DecidableEq

/-- The component state: React `useState` values plus the mutable refs of
the `LiveTutor` component.  `allSources` records every buffer source ever
created together with its current playback status; `activeIds` is the
contents of `audioSourcesRef.current` (ids only).  `tipTimeout` is whether
a pending auto-clear timer exists (`tipTimeoutRef.current !== null`). -/
structure TutorState where
  isConnected : Bool
  status : Status
  errorMessage : Option String
  aiSpeaking : Bool
  userTranscript : String
  aiTranscript : String
  currentTip : Option TipArgs
  stream : Option Nat
  source : Option Nat
  processor : Option Nat
  inputContext : Option Nat
  outputContext : Option Nat
  sessionPromise : Option Nat
  nextStartTime : ℚ
  allSources : List Source
  activeIds : List Nat
  tipTimeout : Bool
deriving DecidableEq

/-- The initial component state (every `useState` initial value, every ref
initialised to `null` / `0` / empty set). -/
def initialState : TutorState where
  isConnected := false
  status := Status.idle
  errorMessage := none
  aiSpeaking := false
  userTranscript := ""
  aiTranscript := ""
  currentTip := none
  stream := none
  source := none
  processor := none
  inputContext := none
  outputContext := none
  sessionPromise := none
  nextStartTime := 0
  allSources := []
  activeIds := []
  tipTimeout := false

/-! ## Playback scheduling (audio-output branch of `onmessage`)

For each inbound audio chunk the source executes
```
nextStartTimeRef.current = Math.max(nextStartTimeRef.current,
                                    outputContextRef.current.currentTime);
source.start(nextStartTimeRef.current);
nextStartTimeRef.current += audioBuffer.duration;
```
A chunk is modelled by the pair (output-clock value at arrival, decoded
buffer duration); a scheduled segment by its start time and duration. -/

/-- A scheduled playback segment: start time and duration. -/
structure Segment where
  start : ℚ
  duration : ℚ
deriving DecidableEq

/-- Run the scheduling recurrence of the audio-output branch over a list of
chunks `(clock, dur)`, given the current `nextStartTime`, producing the
scheduled segments in order. -/
def scheduleAux (n0 : ℚ) : List (ℚ × ℚ) → List Segment
  | [] => []
  | (clock, dur) :: rest =>
      let s := max n0 clock
      { start := s, duration := dur } :: scheduleAux (s + dur) rest

/-- Every segment scheduled from clock value `n0` starts no earlier than
`n0`, provided chunk durations are nonnegative. -/
theorem scheduleAux_start_ge (chunks : List (ℚ × ℚ)) (n0 : ℚ)
    (hd : ∀ c ∈ chunks, 0 ≤ c.2) :
    ∀ seg ∈ scheduleAux n0 chunks, n0 ≤ seg.start := by
  induction chunks generalizing n0 with
  | nil => intro seg h; simp [scheduleAux] at h
  | cons c rest ih =>
      intro seg h
      obtain ⟨clock, dur⟩ := c
      simp only [scheduleAux, List.mem_cons] at h
      rcases h with h | h
      · rw [h]; exact le_max_left _ _
      · have h0 : 0 ≤ dur := hd (clock, dur) (List.mem_cons_self _ _)
        have hrest : ∀ c ∈ rest, 0 ≤ c.2 := fun c hc =>
          hd c (List.mem_cons_of_mem _ hc)
        have := ih (max n0 clock + dur) hrest seg h
        calc n0 ≤ max n0 clock := le_max_left _ _
          _ ≤ max n0 clock + dur := le_add_of_nonneg_right h0
          _ ≤ seg.start := this

/-! ## Constant strings of the component -/

/-- The registered tool name (`pronunciationTipTool.name`). -/
def tipToolName : String := "showPronunciationTip"

/-- The result value sent back for every function call. -/
def okResult : String := "OK"

/-- The user-facing message set by the `onerror` callback. -/
def transportErrorMessage : String := "Connection error. Please try again."

/-- Key of the `word` argument. -/
def wordKey : String := "word"

/-- Key of the `tip` argument. -/
def tipKey : String := "tip"

/-- Key of the `phonetic` argument. -/
def phoneticKey : String := "phonetic"

/-! ## Inbound-message handlers (`onmessage`) -/

/-- The `serverContent.inputTranscription` branch: a truthy (non-empty)
text replaces the whole user transcript (`setUserTranscript(text)`); the
JavaScript truthiness guard skips an empty text. -/
def handleInputTranscription (text : String) (s : TutorState) : TutorState :=
  if text ≠ "" then { s with userTranscript := text } else s

/-- The `serverContent.outputTranscription` branch: a truthy text is
appended to the remote transcript (`setAiTranscript(prev => prev + text)`). -/
def handleOutputTranscription (text : String) (s : TutorState) : TutorState :=
  if text ≠ "" then { s with aiTranscript := s.aiTranscript ++ text } else s

/-- The `serverContent.turnComplete` branch: `setAiTranscript('')`. -/
def handleTurnComplete (s : TutorState) : TutorState :=
  { s with aiTranscript := "" }

/-- Effect of one entry of `calls.forEach`: only a call named
`showPronunciationTip` has an effect, storing its raw arguments as the
current tip (the cast `call.args as PronunciationTip` validates nothing)
and (re)arming the 8-second auto-clear timer. -/
def applyToolCall (s : TutorState) (c : FunctionCall) : TutorState :=
  if c.name = tipToolName then
    { s with
        currentTip := some
          { word := c.args.lookup wordKey
            tip := c.args.lookup tipKey
            phonetic := c.args.lookup phoneticKey }
        tipTimeout := true }
  else s

/-- State effect of the `message.toolCall` branch: `calls.forEach(...)`. -/
def handleToolCall (calls : List FunctionCall) (s : TutorState) : TutorState :=
  calls.foldl applyToolCall s

/-- The acknowledgement list sent by the `message.toolCall` branch:
`calls.map(c => ({id: c.id, name: c.name, response: {result: "OK"}}))`. -/
def toolResponses (calls : List FunctionCall) : List ToolResponse :=
  calls.map fun c => { id := c.id, name := c.name, result := okResult }

/-- The audio-output branch for one chunk, given the output clock value at
arrival and the decoded buffer duration: set the speaking flag, and (when
the output context exists) schedule a fresh buffer source at
`max(nextStartTime, clock)`, advance `nextStartTime` by the duration, and
add the source to the active set. -/
def handleAudioChunk (clock dur : ℚ) (s : TutorState) : TutorState :=
  let s1 := { s with aiSpeaking := true }
  if s1.outputContext.isNone then s1 else
    let start := max s1.nextStartTime clock
    let newId := s1.allSources.length
    { s1 with
        nextStartTime := start + dur
        allSources := s1.allSources ++ [{ id := newId, status := SourceStatus.playing }]
        activeIds := s1.activeIds ++ [newId] }

/-- The `source.onended` callback for the source with id `i`: the source
has stopped producing audio (status `ended`), is deleted from the active
set, and when the set becomes empty the speaking flag is lowered. -/
def handleSourceEnded (i : Nat) (s : TutorState) : TutorState :=
  let remaining := s.activeIds.erase i
  { s with
      allSources := s.allSources.map fun src =>
        if src.id = i then { src with status := SourceStatus.ended } else src
      activeIds := remaining
      aiSpeaking := if remaining.isEmpty then false else s.aiSpeaking }

/-- The `serverContent.interrupted` branch: `src.stop()` on every source of
the active set, clear the set, reset the scheduling clock to `0`, lower the
speaking flag and clear the remote transcript. -/
def handleInterrupted (s : TutorState) : TutorState :=
  { s with
      allSources := s.allSources.map fun src =>
        if src.id ∈ s.activeIds then { src with status := SourceStatus.stopped } else src
      activeIds := []
      nextStartTime := 0
      aiSpeaking := false
      aiTranscript := "" }

/-- Bookkeeping invariant of the component: every buffer source still
producing audio is a member of `audioSourcesRef.current` (sources are added
to the set when started and removed only by `onended`, which fires after
the sound stops). -/
def PlayingTracked (s : TutorState) : Prop :=
  ∀ src ∈ s.allSources, src.status = SourceStatus.playing → src.id ∈ s.activeIds

instance decPlayingTracked (s : TutorState) : Decidable (PlayingTracked s) :=
  inferInstanceAs (Decidable (∀ src ∈ s.allSources,
    src.status = SourceStatus.playing → src.id ∈ s.activeIds))

/-- The bookkeeping invariant holds in the initial state. -/
theorem playingTracked_initialState : PlayingTracked initialState := by
  intro src hsrc
  simp [initialState] at hsrc

/-- Scheduling a new chunk preserves the bookkeeping invariant: the fresh
source is started playing and added to the active set, existing sources
keep their status and set membership. -/
theorem playingTracked_handleAudioChunk (clock dur : ℚ) (s : TutorState)
    (h : PlayingTracked s) : PlayingTracked (handleAudioChunk clock dur s) := by
  intro src hsrc hplay
  simp only [handleAudioChunk] at hsrc ⊢
  by_cases hc : ({ s with aiSpeaking := true } : TutorState).outputContext.isNone
  · rw [if_pos hc] at hsrc ⊢
    exact h src hsrc hplay
  · rw [if_neg hc] at hsrc ⊢
    simp only [List.mem_append, List.mem_singleton] at hsrc ⊢
    rcases hsrc with hmem | hnew
    · exact Or.inl (h src hmem hplay)
    · rw [hnew]
      exact Or.inr rfl

/-- The `onended` callback preserves the bookkeeping invariant: the ended
source stops playing, every other source keeps its status and stays in the
(erased) active set. -/
theorem playingTracked_handleSourceEnded (i : Nat) (s : TutorState)
    (h : PlayingTracked s) : PlayingTracked (handleSourceEnded i s) := by
  intro src hsrc hplay
  simp only [handleSourceEnded, List.mem_map] at hsrc ⊢
  obtain ⟨src0, hmem, heq⟩ := hsrc
  by_cases hid : src0.id = i
  · rw [if_pos hid] at heq
    rw [← heq] at hplay
    exact absurd hplay (by simp)
  · rw [if_neg hid] at heq
    rw [← heq] at hplay ⊢
    exact (List.mem_erase_of_ne hid).mpr (h src0 hmem hplay)

/-- The interruption handler preserves the bookkeeping invariant (after it
runs, no source is playing at all, so the invariant holds vacuously). -/
theorem playingTracked_handleInterrupted (s : TutorState)
    (h : PlayingTracked s) : PlayingTracked (handleInterrupted s) := by
  intro src hsrc hplay
  simp only [handleInterrupted, List.mem_map] at hsrc
  obtain ⟨src0, hmem, heq⟩ := hsrc
  by_cases hid : src0.id ∈ s.activeIds
  · rw [if_pos hid] at heq
    rw [← heq] at hplay
    exact absurd hplay (by simp)
  · rw [if_neg hid] at heq
    rw [← heq] at hplay
    exact absurd (h src0 hmem hplay) hid

/-! ## Lifecycle (`startSession` prologue, `stopSession`, `onerror`) -/

/-- The synchronous prologue of `startSession`, executed before any device
or channel acquisition is attempted. -/
def startSessionBegin (s : TutorState) : TutorState :=
  { s with
      status := Status.connecting
      errorMessage := none
      userTranscript := ""
      aiTranscript := ""
      currentTip := none }

/-- Net state effect of `stopSession`: flags and status reset, the pending
tip timer cancelled, and every resource ref cleared (each `if (ref) ...`
guard in the source only skips a redundant null assignment; the released
side effects are recorded separately by `stopReleases`). -/
def stopSessionState (s : TutorState) : TutorState :=
  { s with
      isConnected := false
      status := Status.idle
      aiSpeaking := false
      tipTimeout := false
      stream := none
      source := none
      processor := none
      inputContext := none
      outputContext := none
      sessionPromise := none }

/-- External release side effects a call to `stopSession` performs, one per
guard that is taken: clear the tip timer, stop the media tracks, disconnect
the source and processor nodes, close both audio contexts, close the
session. -/
inductive ReleaseAction where
  | clearTipTimer
  | stopMicTracks
  | disconnectSource
  | disconnectProcessor
  | closeInputContext
  | closeOutputContext
  | closeSession
deriving DecidableEq

/-- The list of release side effects `stopSession` performs from state `s`,
in source order. -/
def stopReleases (s : TutorState) : List ReleaseAction :=
  (if s.tipTimeout then [ReleaseAction.clearTipTimer] else []) ++
  (if s.stream.isSome then [ReleaseAction.stopMicTracks] else []) ++
  (if s.source.isSome then [ReleaseAction.disconnectSource] else []) ++
  (if s.processor.isSome then [ReleaseAction.disconnectProcessor] else []) ++
  (if s.inputContext.isSome then [ReleaseAction.closeInputContext] else []) ++
  (if s.outputContext.isSome then [ReleaseAction.closeOutputContext] else []) ++
  (if s.sessionPromise.isSome then [ReleaseAction.closeSession] else [])

/-- The `onerror` callback: set the user-facing error message, then run the
`stopSession` teardown. -/
def handleTransportError (s : TutorState) : TutorState :=
  stopSessionState { s with errorMessage := some transportErrorMessage }

/-- Whether the UI permits starting a session: the start button is rendered
when not connected and disabled while `connecting`. -/
def CanStart (s : TutorState) : Prop :=
  s.isConnected = false ∧ s.status ≠ Status.connecting

/-! ## Capture volume (`processor.onaudioprocess`) -/

/-- The volume loop of `onaudioprocess`:
`let sum = 0; for(...) sum += inputData[i] * inputData[i]`. -/
def sumSquares (samples : List ℚ) : ℚ :=
  samples.foldl (fun sum x => sum + x * x) 0

/-- The value under the square root in `Math.sqrt(sum / inputData.length)`. -/
def meanSquare (samples : List ℚ) : ℚ :=
  sumSquares samples / samples.length

/-! ## Concrete states used by witnesses and counterexamples -/

/-- A session mid-playback: two buffer sources playing, both tracked in the
active set, some remote transcript accumulated. -/
def midPlayback : TutorState :=
  { initialState with
      isConnected := true
      status := Status.active
      aiSpeaking := true
      outputContext := some 1
      sessionPromise := some 2
      stream := some 0
      source := some 3
      processor := some 4
      inputContext := some 5
      nextStartTime := 5
      allSources := [{ id := 0, status := SourceStatus.playing },
                     { id := 1, status := SourceStatus.playing }]
      activeIds := [0, 1]
      aiTranscript := "Nice pronunciation of the word" }

/-- A session with non-empty transcripts and a visible pronunciation tip. -/
def sessionWithTranscripts : TutorState :=
  { midPlayback with
      userTranscript := "hello there"
      currentTip := some
        { word := some ("think")
          tip := some ("tongue between teeth")
          phonetic := none }
      tipTimeout := true }

/-! ## Claim theorems -/

/-- C1: each enqueued chunk is scheduled at `max(output clock, last
scheduled end)`; consequently, for chunks of nonnegative duration arriving
at arbitrary clock offsets, the start times are non-decreasing and every
later segment starts no earlier than any earlier segment's start plus its
duration, so no two segments overlap. -/
theorem playback_schedule_monotone_nonoverlapping
    (chunks : List (ℚ × ℚ)) (n0 : ℚ) (hd : ∀ c ∈ chunks, 0 ≤ c.2) :
    List.Pairwise
      (fun a b => a.start + a.duration ≤ b.start ∧ a.start ≤ b.start)
      (scheduleAux n0 chunks) := by
  induction chunks generalizing n0 with
  | nil => simp [scheduleAux]
  | cons c rest ih =>
      obtain ⟨clock, dur⟩ := c
      have h0 : 0 ≤ dur := hd (clock, dur) (List.mem_cons_self _ _)
      have hrest : ∀ c ∈ rest, 0 ≤ c.2 := fun c hc =>
        hd c (List.mem_cons_of_mem _ hc)
      simp only [scheduleAux]
      refine List.Pairwise.cons ?_ (ih _ hrest)
      intro seg hseg
      have hge := scheduleAux_start_ge rest (max n0 clock + dur) hrest seg hseg
      refine ⟨hge, ?_⟩
      calc max n0 clock ≤ max n0 clock + dur := le_add_of_nonneg_right h0
        _ ≤ seg.start := hge

/-- Witness for C1: three chunks, the second arriving with the clock ahead
of the schedule, the third behind it. -/
theorem playback_schedule_monotone_nonoverlapping_witness :
    (∀ c ∈ [((0 : ℚ), (1 : ℚ)), (3, 2), (2, 4)], 0 ≤ c.2) ∧
    List.Pairwise
      (fun a b => a.start + a.duration ≤ b.start ∧ a.start ≤ b.start)
      (scheduleAux 0 [((0 : ℚ), (1 : ℚ)), (3, 2), (2, 4)]) :=
  ⟨by decide,
   playback_schedule_monotone_nonoverlapping _ 0 (by decide)⟩

/-- C2: on the remote `interrupted` signal, provided every source still
producing audio is tracked in the active set (the component's bookkeeping
invariant), the handler stops every active and pending segment — afterwards
no source is playing — empties the active set, resets the scheduling clock
to zero, lowers the remote-speaking flag and clears the remote transcript. -/
theorem interrupted_stops_all_playback (s : TutorState)
    (h : PlayingTracked s) :
    (handleInterrupted s).activeIds = [] ∧
    (handleInterrupted s).nextStartTime = 0 ∧
    (handleInterrupted s).aiSpeaking = false ∧
    (handleInterrupted s).aiTranscript = "" ∧
    ∀ src ∈ (handleInterrupted s).allSources,
      src.status ≠ SourceStatus.playing := by
  refine ⟨rfl, rfl, rfl, rfl, ?_⟩
  intro src hsrc
  simp only [handleInterrupted, List.mem_map] at hsrc
  obtain ⟨src0, hmem, heq⟩ := hsrc
  by_cases hid : src0.id ∈ s.activeIds
  · rw [if_pos hid] at heq
    rw [← heq]
    simp
  · rw [if_neg hid] at heq
    rw [← heq]
    intro hplay
    exact hid (h src0 hmem hplay)

/-- Witness for C2 at the concrete mid-playback state with two queued
segments. -/
theorem interrupted_stops_all_playback_witness :
    PlayingTracked midPlayback ∧
    ((handleInterrupted midPlayback).activeIds = [] ∧
     (handleInterrupted midPlayback).nextStartTime = 0 ∧
     (handleInterrupted midPlayback).aiSpeaking = false ∧
     (handleInterrupted midPlayback).aiTranscript = "" ∧
     ∀ src ∈ (handleInterrupted midPlayback).allSources,
       src.status ≠ SourceStatus.playing) :=
  ⟨by decide, interrupted_stops_all_playback midPlayback (by decide)⟩

/-- C3: the acknowledgement list is a map over the delivered function
calls, so every invocation yields exactly one acknowledgement, positionally
correlated by its id and name, independent of whether the name matches the
registered tool and of the argument payload. -/
theorem toolcall_acknowledged_exactly_once (calls : List FunctionCall) :
    (toolResponses calls).length = calls.length ∧
    (toolResponses calls).map ToolResponse.id = calls.map FunctionCall.id ∧
    (toolResponses calls).map ToolResponse.name = calls.map FunctionCall.name := by
  refine ⟨?_, ?_, ?_⟩
  · simp [toolResponses]
  · simp [toolResponses]
  · simp [toolResponses]

/-- Counterexample to C4: a tool call whose name matches no registered
tool is acknowledged with the success result `"OK"`, not with a failure
result, and has no local effect at all (no `UnknownTool` failure exists in
the code). -/
theorem unknown_tool_acknowledged_ok_cex :
    toolResponses [{ id := "t9", name := "notARegisteredTool", args := [] }] =
      [{ id := "t9", name := "notARegisteredTool", result := "OK" }] ∧
    handleToolCall [{ id := "t9", name := "notARegisteredTool", args := [] }]
      midPlayback = midPlayback := by
  constructor
  · rfl
  · rfl

/-- C4 as amended: the dispatcher performs no validation at all — every
invocation, unknown-named or missing required arguments alike, is
acknowledged with result `"OK"`; an unknown-named invocation changes
nothing, and the session status and error message are untouched, so the
session continues uninterrupted. -/
theorem tool_dispatch_no_validation (s : TutorState) (c : FunctionCall) :
    (∀ r ∈ toolResponses [c], r.result = okResult) ∧
    (handleToolCall [c] s).status = s.status ∧
    (handleToolCall [c] s).errorMessage = s.errorMessage ∧
    (c.name ≠ tipToolName → handleToolCall [c] s = s) := by
  refine ⟨?_, ?_, ?_, ?_⟩
  · simp [toolResponses]
  · simp only [handleToolCall, List.foldl_cons, List.foldl_nil, applyToolCall]
    split <;> rfl
  · simp only [handleToolCall, List.foldl_cons, List.foldl_nil, applyToolCall]
    split <;> rfl
  · intro hn
    simp [handleToolCall, applyToolCall, hn]

/-- Witness for C4 (amended) at a concrete unknown-named invocation. -/
theorem tool_dispatch_no_validation_witness :
    (∀ r ∈ toolResponses [{ id := "t9", name := "translateWord", args := [] }],
       r.result = okResult) ∧
    ({ id := "t9", name := "translateWord", args := [] } : FunctionCall).name ≠
      tipToolName ∧
    handleToolCall [{ id := "t9", name := "translateWord", args := [] }]
      midPlayback = midPlayback :=
  ⟨(tool_dispatch_no_validation midPlayback
      { id := "t9", name := "translateWord", args := [] }).1,
   by decide,
   (tool_dispatch_no_validation midPlayback
      { id := "t9", name := "translateWord", args := [] }).2.2.2 (by decide)⟩

/-- Counterexample to C5: after a transport error the session is in the
`idle` state, not the `error` state the claim requires. -/
theorem transport_error_state_cex :
    (handleTransportError midPlayback).status = Status.idle ∧
    (handleTransportError midPlayback).status ≠ Status.error :=
  ⟨rfl, by decide⟩

/-- C5 as amended: a channel-level transport failure performs the full
teardown and leaves the session in the `idle` state (not `error`) with the
user-facing error message set; restarting is permitted from that state. -/
theorem transport_error_teardown_idle (s : TutorState) :
    (handleTransportError s).status = Status.idle ∧
    (handleTransportError s).errorMessage = some transportErrorMessage ∧
    (handleTransportError s).isConnected = false ∧
    (handleTransportError s).stream = none ∧
    (handleTransportError s).source = none ∧
    (handleTransportError s).processor = none ∧
    (handleTransportError s).inputContext = none ∧
    (handleTransportError s).outputContext = none ∧
    (handleTransportError s).sessionPromise = none ∧
    CanStart (handleTransportError s) :=
  ⟨rfl, rfl, rfl, rfl, rfl, rfl, rfl, rfl, rfl, rfl, fun hc => Status.noConfusion hc⟩

/-- Counterexample to C6: `stopSession` leaves the user transcript and the
visible pronunciation tip in place — nothing clears them. -/
theorem stop_keeps_transcripts_cex :
    (stopSessionState sessionWithTranscripts).userTranscript = "hello there" ∧
    (stopSessionState sessionWithTranscripts).userTranscript ≠ "" ∧
    (stopSessionState sessionWithTranscripts).currentTip ≠ none :=
  ⟨rfl, by decide, by decide⟩

/-- C6 as amended: `stopSession`, from any state, releases the microphone,
disconnects the capture nodes, closes both audio contexts (which stops all
playback), closes the channel, cancels the pending tip auto-clear timer and
returns the lifecycle flags to `idle` — but it does NOT clear the
transcripts or the visible pronunciation tip; those are reset only by the
next `startSession`. -/
theorem stop_teardown_preserves_transcripts (s : TutorState) :
    (stopSessionState s).stream = none ∧
    (stopSessionState s).source = none ∧
    (stopSessionState s).processor = none ∧
    (stopSessionState s).inputContext = none ∧
    (stopSessionState s).outputContext = none ∧
    (stopSessionState s).sessionPromise = none ∧
    (stopSessionState s).status = Status.idle ∧
    (stopSessionState s).isConnected = false ∧
    (stopSessionState s).aiSpeaking = false ∧
    (stopSessionState s).tipTimeout = false ∧
    (stopSessionState s).userTranscript = s.userTranscript ∧
    (stopSessionState s).aiTranscript = s.aiTranscript ∧
    (stopSessionState s).currentTip = s.currentTip :=
  ⟨rfl, rfl, rfl, rfl, rfl, rfl, rfl, rfl, rfl, rfl, rfl, rfl, rfl⟩

/-- C7: `stopSession` is idempotent — a second call changes nothing and
performs no release side effect; calling it on the pristine initial state
(before `start` ever completed acquisition) is also a no-op; and after any
call the session is `idle` with every device handle cleared. -/
theorem stop_idempotent (s : TutorState) :
    stopSessionState (stopSessionState s) = stopSessionState s ∧
    stopReleases (stopSessionState s) = [] ∧
    (stopSessionState s).status = Status.idle ∧
    (stopSessionState s).stream = none ∧
    (stopSessionState s).inputContext = none ∧
    (stopSessionState s).outputContext = none ∧
    stopSessionState initialState = initialState ∧
    stopReleases initialState = [] :=
  ⟨rfl, rfl, rfl, rfl, rfl, rfl, rfl, rfl⟩

/-- C8: a (truthy) user-transcription fragment replaces the whole user
transcript, a remote-transcription fragment is appended to the remote
transcript, and the turn-complete signal clears the remote transcript.
(The source's truthiness guard treats an empty text as an absent payload.) -/
theorem transcription_event_semantics (s : TutorState) (frag : String)
    (h : frag ≠ "") :
    (handleInputTranscription frag s).userTranscript = frag ∧
    (handleOutputTranscription frag s).aiTranscript = s.aiTranscript ++ frag ∧
    (handleTurnComplete s).aiTranscript = "" := by
  refine ⟨?_, ?_, rfl⟩
  · simp [handleInputTranscription, h]
  · simp [handleOutputTranscription, h]

/-- A concrete non-empty transcription fragment. -/
def sampleFragment : String := "I saw a bird today"

/-- Witness for C8 at a concrete state and fragment. -/
theorem transcription_event_semantics_witness :
    sampleFragment ≠ "" ∧
    ((handleInputTranscription sampleFragment sessionWithTranscripts).userTranscript
        = sampleFragment ∧
     (handleOutputTranscription sampleFragment sessionWithTranscripts).aiTranscript
        = sessionWithTranscripts.aiTranscript ++ sampleFragment ∧
     (handleTurnComplete sessionWithTranscripts).aiTranscript = "") :=
  ⟨by decide,
   transcription_event_semantics sessionWithTranscripts sampleFragment (by decide)⟩

/-- The capture loop's running sum, started from an arbitrary accumulator,
is that accumulator plus the sum of the squared samples. -/
theorem sumSquares_foldl (xs : List ℚ) (a : ℚ) :
    xs.foldl (fun sum x => sum + x * x) a = a + (xs.map fun x => x ^ 2).sum := by
  induction xs generalizing a with
  | nil => simp
  | cons x xs ih =>
      rw [List.foldl_cons, ih]
      simp only [List.map_cons, List.sum_cons]
      ring

/-- The capture loop computes exactly the sum of squared samples. -/
theorem sumSquares_eq (xs : List ℚ) :
    sumSquares xs = (xs.map fun x => x ^ 2).sum := by
  rw [sumSquares, sumSquares_foldl, zero_add]

/-- C9: for every non-empty capture window the reported volume
`Math.sqrt(sum / inputData.length)` is the root-mean-square amplitude —
the square root of the mean of the squared samples — and a window of
all-zero samples reports volume `0`. -/
theorem capture_volume_rms (samples : List ℚ) (_h : samples ≠ []) :
    Real.sqrt ((meanSquare samples : ℚ) : ℝ) =
      Real.sqrt ((((samples.map fun x => x ^ 2).sum / (samples.length : ℚ)) : ℚ) : ℝ) ∧
    ((∀ x ∈ samples, x = 0) → Real.sqrt ((meanSquare samples : ℚ) : ℝ) = 0) := by
  constructor
  · rw [meanSquare, sumSquares_eq]
  · intro hz
    have hsum : (samples.map fun x => x ^ 2).sum = 0 := by
      apply List.sum_eq_zero
      intro y hy
      simp only [List.mem_map] at hy
      obtain ⟨x, hx, hxy⟩ := hy
      rw [← hxy, hz x hx]
      ring
    have hm : meanSquare samples = 0 := by
      rw [meanSquare, sumSquares_eq, hsum, zero_div]
    rw [hm]
    simp [Real.sqrt_zero]

/-- A concrete all-zero capture window. -/
def silentWindow : List ℚ := [0, 0, 0]

/-- Witness for C9 at a concrete window of three silent samples. -/
theorem capture_volume_rms_witness :
    silentWindow ≠ [] ∧ (∀ x ∈ silentWindow, x = 0) ∧
    Real.sqrt ((meanSquare silentWindow : ℚ) : ℝ) = 0 :=
  ⟨by decide, by decide,
   (capture_volume_rms silentWindow (by decide)).2 (by decide)⟩

/-- C10: the synchronous prologue of `startSession` clears the error
message, both transcripts and the visible tip (and enters `connecting`)
before any device or channel acquisition is attempted, so every new
session starts with a blank observable state. -/
theorem start_resets_observable_state (s : TutorState) :
    (startSessionBegin s).status = Status.connecting ∧
    (startSessionBegin s).errorMessage = none ∧
    (startSessionBegin s).userTranscript = "" ∧
    (startSessionBegin s).aiTranscript = "" ∧
    (startSessionBegin s).currentTip = none :=
  ⟨rfl, rfl, rfl, rfl, rfl⟩

end LiveTutor
